import Mathlib

/-!
# libfile: handle dispatcher, whole-file utilities and filesystem stat query

A shallow embedding of `src/libfile/libfile.c`.

* The operating system (stat, statfs, calloc) and the two backends `io_ops` and
  `fio_ops` (declared `extern` in the source) are parameters, bundled in `Env`.
  They act on a world of type `W` that the embedding never inspects.
* The process-wide selector `backend`, the heap of `struct file` objects and a
  trace of the external calls made so far form the explicit `State`.
* A `struct file *` is `Option Nat`: `none` is `NULL`, `some p` addresses the
  `p`-th `struct file` object of the heap.
* A handle operation applied to a pointer that addresses no object is undefined
  behaviour in C; it is `none` at the outer `Option` of the embedding.
* Integer widths are those of LP64 Linux: `int` is 32 bits, `long`, `off_t`,
  `ssize_t`, `size_t`, `__fsword_t` and `fsblkcnt_t` are 64 bits.
-/

namespace Libfile

/-! ## Data model -/

/-- A `const char *`: `none` is the null pointer. -/
abbrev Path := Option String

/-- Modelled from the spec: the backend-specific descriptor stored in a handle
(`fd` of `struct file`, declared in `libfile.h`), "a numeric descriptor or
opaque pointer"; its value is only stored and passed back to the backend. -/
abbrev Desc := Int

/-- Modelled from the spec: the enumeration `file_backend_type` of `libfile.h`,
with one value per backend variant (descriptor-based, buffered-stream-based).
The values index the table `file_ops[]` of the source. -/
inductive file_backend_type where
  | FILE_BACKEND_IO
  | FILE_BACKEND_FIO
  deriving DecidableEq, Repr

/-- Modelled from the spec: the open-mode enumeration `file_open_mode_t` of
`libfile.h` (read-only, write-only, read-write, create-if-missing, append,
truncate). The source only names `F_RDONLY`. -/
inductive file_open_mode_t where
  | F_RDONLY
  | F_WRONLY
  | F_RDWR
  | F_CREATE
  | F_APPEND
  | F_TRUNC
  deriving DecidableEq, Repr

/-- The operation set `struct file_ops` of a backend, over a world `W`.
A buffer argument is the list of its bytes; `read` returns the buffer as it
stands after the call next to the `ssize_t` it reports. -/
structure file_ops (W : Type) where
  open_ : Path → file_open_mode_t → W → Desc × W
  close : Desc → W → W
  read : Desc → List Nat → Nat → W → (Int × List Nat) × W
  write : Desc → List Nat → Nat → W → Int × W
  size : Desc → W → Int × W
  sync : Desc → W → Int × W
  seek : Desc → Int → Int → W → Int × W

/-- The fields of `struct statfs` that the source reads. `f_type` and `f_bsize`
are `__fsword_t` (signed 64-bit), the block counts are `fsblkcnt_t`
(unsigned 64-bit). -/
structure statfs_t where
  f_type : Int
  f_bsize : Int
  f_blocks : Nat
  f_bfree : Nat
  f_bavail : Nat
  deriving DecidableEq, Repr

/-- What the source takes from outside `libfile.c`: the C library and kernel
calls, the two `extern` operation sets, and the sizes fixed by `libfile.h`.
`stat` and `statfs` give `none` when the call reports failure; `calloc` gives
`false` when it returns `NULL`. -/
structure Env (W : Type) where
  io_ops : file_ops W
  fio_ops : file_ops W
  calloc : Nat → Nat → W → Bool × W
  free : W → W
  stat : Path → W → Option Int × W
  statfs : Path → W → Option statfs_t × W
  sizeof_file : Nat
  sizeof_file_systat : Nat
  sizeof_fs_type_name : Nat

/-- An external call made by the library, as recorded in the trace. A `printf`
is recorded by its format string. -/
inductive Call where
  | calloc (nmemb size : Nat)
  | free_iov_base
  | free_iovec
  | stat (path : Path)
  | statfs (path : Path)
  | printf (fmt : String)
  | ops_open (path : Path) (mode : file_open_mode_t)
  | ops_close (fd : Desc)
  | ops_read (fd : Desc) (size : Nat)
  | ops_write (fd : Desc) (size : Nat)
  | ops_size (fd : Desc)
  | ops_sync (fd : Desc)
  | ops_seek (fd : Desc) (offset : Int) (whence : Int)
  deriving DecidableEq, Repr

/-- The object `struct file`: the operation set bound at open time and the
descriptor the backend returned. -/
structure file (W : Type) where
  ops : file_ops W
  fd : Desc

/-- The state the library runs in: the static variable `backend`, the
`struct file` objects allocated so far, the outside world, and the trace of
external calls. -/
structure State (W : Type) where
  backend : file_backend_type
  heap : List (file W)
  world : W
  trace : List Call

/-- The object `struct iovec`: `iov_len` and the bytes `iov_base` points to. -/
structure iovec where
  iov_len : Nat
  iov_base : List Nat
  deriving DecidableEq, Repr

/-- Modelled from the spec: the record `struct file_systat` of `libfile.h`:
total, available and free capacity in bytes, held in unsigned 64-bit fields,
and the fixed-width character array `fs_type_name`. -/
structure file_systat where
  size_total : Nat
  size_avail : Nat
  size_free : Nat
  fs_type_name : List Nat
  deriving DecidableEq, Repr

/-- The state at process start: `backend = FILE_BACKEND_IO`, no handle yet. -/
def State.init {W : Type} (w : W) : State W :=
  { backend := file_backend_type.FILE_BACKEND_IO, heap := [], world := w, trace := [] }

/-- Records one external call and the world it leaves. -/
def State.step {W : Type} (s : State W) (c : Call) (w : W) : State W :=
  { s with world := w, trace := s.trace ++ [c] }

/-! ## Integer conversions -/

/-- Conversion of an integer value to `int` (32-bit two's complement). -/
def to_int (n : Int) : Int :=
  if n % 2 ^ 32 < 2 ^ 31 then n % 2 ^ 32 else n % 2 ^ 32 - 2 ^ 32

/-- Conversion of an integer value to `size_t` / `unsigned long` (64 bits). -/
def to_size_t (n : Int) : Nat :=
  (n % 2 ^ 64).toNat

/-! ## Filesystem type registry -/

def FS_CIFS : Int := 0xFF534D42
def FS_CRAMFS : Int := 0x28cd3d45
def FS_DEBUGFS : Int := 0x64626720
def FS_DEVFS : Int := 0x1373
def FS_DEVPTS : Int := 0x1cd1
def FS_EXT : Int := 0x137D
def FS_EXT2_OLD : Int := 0xEF51
def FS_EXT2 : Int := 0xEF53
def FS_EXT3 : Int := 0xEF53
def FS_EXT4 : Int := 0xEF53
def FS_FUSE : Int := 0x65735546
def FS_JFFS2 : Int := 0x72b6
def FS_MQUEUE : Int := 0x19800202
def FS_MSDOS : Int := 0x4d44
def FS_NFS : Int := 0x6969
def FS_NTFS : Int := 0x5346544e
def FS_PROC : Int := 0x9fa0
def FS_RAMFS : Int := 0x858458f6
def FS_ROMFS : Int := 0x7275
def FS_SELINUX : Int := 0xf97cff8c
def FS_SMB : Int := 0x517B
def FS_SOCKFS : Int := 0x534F434B
def FS_SQUASHFS : Int := 0x73717368
def FS_SYSFS : Int := 0x62656572
def FS_TMPFS : Int := 0x01021994

/-- The bytes of a string literal placed in a `char[32]`: the characters, then
zero bytes up to 32. -/
def char32 (s : List Char) : List Nat :=
  s.map Char.toNat ++ List.replicate (32 - s.length) 0

/-- One element of `fs_type_info[]`: `const char name[32]` and
`const int value`. -/
structure fs_type_entry where
  name : List Nat
  value : Int
  deriving DecidableEq, Repr

/-- An initialiser `{"NAME", FS_X}` of the table: the enumerator is converted to
the `int` field. -/
def fs_entry (name : String) (magic : Int) : fs_type_entry :=
  { name := char32 name.toList, value := to_int magic }

/-- The table `fs_type_info[]`, in source order. -/
def fs_type_info : List fs_type_entry :=
  [ fs_entry "CIFS    " FS_CIFS,
    fs_entry "CRAMFS  " FS_CRAMFS,
    fs_entry "DEBUGFS " FS_DEBUGFS,
    fs_entry "DEVFS   " FS_DEVFS,
    fs_entry "DEVPTS  " FS_DEVPTS,
    fs_entry "EXT     " FS_EXT,
    fs_entry "EXT2_OLD" FS_EXT2_OLD,
    fs_entry "EXT2    " FS_EXT2,
    fs_entry "EXT3    " FS_EXT3,
    fs_entry "EXT4    " FS_EXT4,
    fs_entry "FUSE    " FS_FUSE,
    fs_entry "JFFS2   " FS_JFFS2,
    fs_entry "MQUEUE  " FS_MQUEUE,
    fs_entry "MSDOS   " FS_MSDOS,
    fs_entry "NFS     " FS_NFS,
    fs_entry "NTFS    " FS_NTFS,
    fs_entry "PROC    " FS_PROC,
    fs_entry "RAMFS   " FS_RAMFS,
    fs_entry "ROMFS   " FS_ROMFS,
    fs_entry "SELINUX " FS_SELINUX,
    fs_entry "SMB     " FS_SMB,
    fs_entry "SOCKFS  " FS_SOCKFS,
    fs_entry "SQUASHFS" FS_SQUASHFS,
    fs_entry "SYSFS   " FS_SYSFS,
    fs_entry "TMPFS   " FS_TMPFS ]

/-! ## Handle dispatcher -/

/-- The table `file_ops[] = {&io_ops, &fio_ops, NULL}` read at an enumerator of
`file_backend_type`; no enumerator addresses the terminating `NULL`. -/
def file_ops_table {W : Type} (env : Env W) : file_backend_type → file_ops W
  | file_backend_type.FILE_BACKEND_IO => env.io_ops
  | file_backend_type.FILE_BACKEND_FIO => env.fio_ops

/-- The function `file_backend`: assigns the static selector. -/
def file_backend {W : Type} (type : file_backend_type) (s : State W) : State W :=
  { s with backend := type }

/-- The function `file_open`: allocates a `struct file`, binds it to the
operation set of the selected backend, stores what the backend's open
returns, and returns the handle. -/
def file_open {W : Type} (env : Env W) (path : Path) (mode : file_open_mode_t)
    (s : State W) : Option Nat × State W :=
  let a := env.calloc 1 env.sizeof_file s.world
  let s1 := s.step (Call.calloc 1 env.sizeof_file) a.2
  if !a.1 then
    (none, s1.step (Call.printf "malloc failed!\n") s1.world)
  else
    let ops := file_ops_table env s1.backend
    let r := ops.open_ path mode s1.world
    let s2 := s1.step (Call.ops_open path mode) r.2
    (some s2.heap.length, { s2 with heap := s2.heap ++ [{ ops := ops, fd := r.1 }] })

/-- The function `file_close`: forwards to the bound backend's close. -/
def file_close {W : Type} (f : Nat) (s : State W) : Option (State W) :=
  match s.heap.get? f with
  | none => none
  | some o => some (s.step (Call.ops_close o.fd) (o.ops.close o.fd s.world))

/-- The function `file_read`: forwards to the bound backend's read. -/
def file_read {W : Type} (f : Nat) (data : List Nat) (size : Nat) (s : State W) :
    Option ((Int × List Nat) × State W) :=
  match s.heap.get? f with
  | none => none
  | some o =>
    let r := o.ops.read o.fd data size s.world
    some (r.1, s.step (Call.ops_read o.fd size) r.2)

/-- The function `file_write`: forwards to the bound backend's write. -/
def file_write {W : Type} (f : Nat) (data : List Nat) (size : Nat) (s : State W) :
    Option (Int × State W) :=
  match s.heap.get? f with
  | none => none
  | some o =>
    let r := o.ops.write o.fd data size s.world
    some (r.1, s.step (Call.ops_write o.fd size) r.2)

/-- The function `file_size`: forwards to the bound backend's size. -/
def file_size {W : Type} (f : Nat) (s : State W) : Option (Int × State W) :=
  match s.heap.get? f with
  | none => none
  | some o =>
    let r := o.ops.size o.fd s.world
    some (r.1, s.step (Call.ops_size o.fd) r.2)

/-- The function `file_sync`: forwards to the bound backend's sync. -/
def file_sync {W : Type} (f : Nat) (s : State W) : Option (Int × State W) :=
  match s.heap.get? f with
  | none => none
  | some o =>
    let r := o.ops.sync o.fd s.world
    some (r.1, s.step (Call.ops_sync o.fd) r.2)

/-- The function `file_seek`: forwards to the bound backend's seek. -/
def file_seek {W : Type} (f : Nat) (offset : Int) (whence : Int) (s : State W) :
    Option (Int × State W) :=
  match s.heap.get? f with
  | none => none
  | some o =>
    let r := o.ops.seek o.fd offset whence s.world
    some (r.1, s.step (Call.ops_seek o.fd offset whence) r.2)

/-! ## Whole-file utilities -/

/-- The value of `sizeof(struct iovec)` on LP64: a pointer and a `size_t`. -/
def sizeof_iovec : Nat := 16

/-- The function `file_get_size`: the `st_size` that `stat` reports, or 0 when
`stat` fails. -/
def file_get_size {W : Type} (env : Env W) (path : Path) (s : State W) : Int × State W :=
  let r := env.stat path s.world
  let s1 := s.step (Call.stat path) r.2
  match r.1 with
  | none => (0, s1.step (Call.printf "%s stat error: %s\n") s1.world)
  | some st_size => (st_size, s1)

/-- The function `file_dump`: sizes the file, allocates the `struct iovec` and a
zeroed buffer of that size, opens the file read-only, reads into the buffer,
closes and returns the `struct iovec` (`none` inside is `NULL`). -/
def file_dump {W : Type} (env : Env W) (path : Path) (s : State W) :
    Option (Option iovec × State W) :=
  let g := file_get_size env path s
  let size := g.1
  if size = 0 then
    some (none, g.2)
  else
    let a := env.calloc 1 sizeof_iovec g.2.world
    let s1 := g.2.step (Call.calloc 1 sizeof_iovec) a.2
    if !a.1 then
      some (none, s1.step (Call.printf "malloc failed!\n") s1.world)
    else
      let iov_len := to_size_t size
      let b := env.calloc 1 iov_len s1.world
      let s2 := s1.step (Call.calloc 1 iov_len) b.2
      if !b.1 then
        some (none, s2.step (Call.printf "malloc failed!\n") s2.world)
      else
        let iov_base := List.replicate iov_len 0
        let o := file_open env path file_open_mode_t.F_RDONLY s2
        match o.1 with
        | none =>
          let s3 := o.2.step (Call.printf "file open failed!\n") o.2.world
          let s4 := s3.step Call.free_iov_base (env.free s3.world)
          some (none, s4.step Call.free_iovec (env.free s4.world))
        | some f =>
          match file_read f iov_base iov_len o.2 with
          | none => none
          | some rd =>
            match file_close f rd.2 with
            | none => none
            | some s5 => some (some { iov_len := iov_len, iov_base := rd.1.2 }, s5)

/-! ## Filesystem stat query -/

/-- The C library's `strncpy(dest, src, n)` as the `n` bytes it leaves in
`dest`: the characters of `src` before its first zero byte, at most `n` of
them, then zero bytes up to `n`. -/
def strncpy (src : List Nat) (n : Nat) : List Nat :=
  ((src.takeWhile (fun c => c != 0)).take n) ++
    List.replicate (n - ((src.takeWhile (fun c => c != 0)).take n).length) 0

/-- The product of a `long` and an `unsigned long`: the `long` is converted to
`unsigned long` and the product is taken modulo 2^64. -/
def mul_ulong (a : Int) (b : Nat) : Nat :=
  (to_size_t a * b) % 2 ^ 64

/-- The `for` loop of `file_get_systat` from index `i` on, over the remaining
table entries: at the first entry whose `value` equals `f_type` it stores `i`
in `f_type`, copies the name with `strncpy` and breaks. Returns `f_type` and
`fs_type_name` as the loop leaves them. -/
def fs_type_scan (n : Nat) : List fs_type_entry → Nat → Int → List Nat → Int × List Nat
  | [], _, f_type, name => (f_type, name)
  | e :: rest, i, f_type, name =>
    if f_type = e.value then ((i : Int), strncpy e.name n)
    else fs_type_scan n rest (i + 1) f_type name

/-- The function `file_get_systat`: rejects a null path, queries `statfs`,
allocates the zeroed record, fills the three capacities and resolves the
filesystem type name against `fs_type_info` (`none` is `NULL`). -/
def file_get_systat {W : Type} (env : Env W) (path : Path) (s : State W) :
    Option file_systat × State W :=
  match path with
  | none => (none, s.step (Call.printf "path can't be null\n") s.world)
  | some _ =>
    let r := env.statfs path s.world
    let s1 := s.step (Call.statfs path) r.2
    match r.1 with
    | none => (none, s1.step (Call.printf "statfs %s failed: %s\n") s1.world)
    | some stfs =>
      let a := env.calloc 1 env.sizeof_file_systat s1.world
      let s2 := s1.step (Call.calloc 1 env.sizeof_file_systat) a.2
      if !a.1 then
        (none, s2.step (Call.printf "malloc failed!\n") s2.world)
      else
        let m := fs_type_scan env.sizeof_fs_type_name fs_type_info 0 stfs.f_type
          (List.replicate env.sizeof_fs_type_name 0)
        (some { size_total := mul_ulong stfs.f_bsize stfs.f_blocks,
                size_avail := mul_ulong stfs.f_bsize stfs.f_bavail,
                size_free := mul_ulong stfs.f_bsize stfs.f_bfree,
                fs_type_name := m.2 }, s2)

/-! ## A concrete environment

An in-memory disk and backends over it, used to run the definitions on
concrete inputs. -/

/-- A file of the in-memory disk: its path, whether it may be opened for
reading, and its bytes. -/
structure disk_file where
  path : String
  readable : Bool
  data : List Nat
  deriving DecidableEq, Repr

/-- The invalid-descriptor sentinel of the concrete backends. -/
def INVALID_DESC : Desc := -1

/-- Index of the first file of the disk named `p`, counted from `i`. -/
def disk_find : List disk_file → String → Nat → Option (Nat × disk_file)
  | [], _, _ => none
  | e :: rest, p, i => if e.path = p then some (i, e) else disk_find rest p (i + 1)

/-- The file a descriptor of the backend with descriptor base `base` stands
for, if any. -/
def disk_lookup (base : Int) (disk : List disk_file) (fd : Desc) : Option disk_file :=
  if fd < base then none else disk.get? (fd - base).toNat

/-- Modelled from the spec: a backend operation set meeting the capability
contract of the backends `io_ops` / `fio_ops` (defined outside `libfile.c`),
over a fixed in-memory disk. A descriptor is `base` plus the index of a file
of the disk; open returns the sentinel when the path is null, names no file,
or names a file that may not be read; read copies the leading bytes of the
file into the buffer and reports their count, or reports -1 and leaves the
buffer alone on a descriptor that stands for no file. -/
def disk_ops (base : Int) (disk : List disk_file) : file_ops Unit where
  open_ := fun path _ w =>
    match path with
    | none => (INVALID_DESC, w)
    | some p =>
      match disk_find disk p 0 with
      | none => (INVALID_DESC, w)
      | some (i, e) => if e.readable then (base + (i : Int), w) else (INVALID_DESC, w)
  close := fun _ w => w
  read := fun fd buf size w =>
    match disk_lookup base disk fd with
    | none => ((-1, buf), w)
    | some e =>
      (((min size e.data.length : Nat), e.data.take size ++ buf.drop (min size e.data.length)), w)
  write := fun _ _ _ w => (-1, w)
  size := fun fd w =>
    match disk_lookup base disk fd with
    | none => (-1, w)
    | some e => ((e.data.length : Nat), w)
  sync := fun fd w =>
    match disk_lookup base disk fd with
    | none => (-1, w)
    | some _ => (0, w)
  seek := fun fd offset _ w =>
    match disk_lookup base disk fd with
    | none => (-1, w)
    | some _ => (offset, w)

/-- The `stat` of the concrete environment: the length of the named file of the
disk, failure when the path is null or names no file. -/
def disk_stat (disk : List disk_file) (path : Path) : Option Int :=
  match path with
  | none => none
  | some p => (disk_find disk p 0).map (fun r => (r.2.data.length : Int))

/-- A concrete environment over one disk: `io_ops` hands out descriptors from 3,
`fio_ops` from 1000, every allocation succeeds, and `statfs` answers `stfs`
for every path. -/
def disk_env (disk : List disk_file) (stfs : Option statfs_t) : Env Unit where
  io_ops := disk_ops 3 disk
  fio_ops := disk_ops 1000 disk
  calloc := fun _ _ w => (true, w)
  free := fun w => w
  stat := fun path w => (disk_stat disk path, w)
  statfs := fun _ w => (stfs, w)
  sizeof_file := 16
  sizeof_file_systat := 56
  sizeof_fs_type_name := 32

/-- A disk holding a four-byte file, an empty file, and a four-byte file that
may not be read. -/
def disk0 : List disk_file :=
  [ { path := "/tmp/data.bin", readable := true, data := [222, 173, 190, 239] },
    { path := "/tmp/empty", readable := true, data := [] },
    { path := "/tmp/secret", readable := false, data := [1, 2, 3, 4] } ]

/-- Modelled from the spec: a backend operation set as `disk_ops`, except that
one read call transfers at most `chunk` bytes. The contract's read takes a
maximum length and reports the count of bytes read, so a call may deliver
fewer bytes than were asked for (a short read). -/
def chunk_ops (chunk : Nat) (base : Int) (disk : List disk_file) : file_ops Unit where
  open_ := (disk_ops base disk).open_
  close := (disk_ops base disk).close
  read := fun fd buf size w =>
    match disk_lookup base disk fd with
    | none => ((-1, buf), w)
    | some e =>
      (((min (min size chunk) e.data.length : Nat),
        e.data.take (min size chunk) ++ buf.drop (min (min size chunk) e.data.length)), w)
  write := (disk_ops base disk).write
  size := (disk_ops base disk).size
  sync := (disk_ops base disk).sync
  seek := (disk_ops base disk).seek

/-- The concrete environment `disk_env` with backends whose read transfers at
most `chunk` bytes per call. -/
def chunk_env (chunk : Nat) (disk : List disk_file) (stfs : Option statfs_t) : Env Unit where
  io_ops := chunk_ops chunk 3 disk
  fio_ops := chunk_ops chunk 1000 disk
  calloc := (disk_env disk stfs).calloc
  free := (disk_env disk stfs).free
  stat := (disk_env disk stfs).stat
  statfs := (disk_env disk stfs).statfs
  sizeof_file := (disk_env disk stfs).sizeof_file
  sizeof_file_systat := (disk_env disk stfs).sizeof_file_systat
  sizeof_fs_type_name := (disk_env disk stfs).sizeof_fs_type_name

/-- A `statfs` answer with 4096-byte blocks, 1000 blocks in all, 500 free and
400 available, for a filesystem of the given type. -/
def statfs0 (f_type : Int) : statfs_t :=
  { f_type := f_type, f_bsize := 4096, f_blocks := 1000, f_bfree := 500, f_bavail := 400 }

/-- Applies `file_backend` once for each selector of the list, in order. -/
def file_backend_seq {W : Type} (types : List file_backend_type) (s : State W) : State W :=
  types.foldl (fun st t => file_backend t st) s

/-! ## Lemmas on the dispatcher -/

theorem file_backend_seq_heap {W : Type} (types : List file_backend_type) (s : State W) :
    (file_backend_seq types s).heap = s.heap := by
  induction types generalizing s with
  | nil => rfl
  | cons t ts ih =>
    have h := ih (file_backend t s)
    simpa [file_backend_seq, file_backend] using h

theorem file_backend_seq_world {W : Type} (types : List file_backend_type) (s : State W) :
    (file_backend_seq types s).world = s.world := by
  induction types generalizing s with
  | nil => rfl
  | cons t ts ih =>
    have h := ih (file_backend t s)
    simpa [file_backend_seq, file_backend] using h

theorem file_backend_seq_trace {W : Type} (types : List file_backend_type) (s : State W) :
    (file_backend_seq types s).trace = s.trace := by
  induction types generalizing s with
  | nil => rfl
  | cons t ts ih =>
    have h := ih (file_backend t s)
    simpa [file_backend_seq, file_backend] using h

/-- What `file_open` does once its allocation has succeeded: the new object
holds the selected backend's operation set and whatever its open returned. -/
theorem file_open_of_calloc {W : Type} (env : Env W) (path : Path) (mode : file_open_mode_t)
    (s : State W) (w1 w2 : W) (d : Desc)
    (hcalloc : env.calloc 1 env.sizeof_file s.world = (true, w1))
    (hopen : (file_ops_table env s.backend).open_ path mode w1 = (d, w2)) :
    file_open env path mode s =
      (some s.heap.length,
        { backend := s.backend,
          heap := s.heap ++ [{ ops := file_ops_table env s.backend, fd := d }],
          world := w2,
          trace := s.trace ++ [Call.calloc 1 env.sizeof_file, Call.ops_open path mode] }) := by
  simp [file_open, State.step, hcalloc, hopen]

/-- A handle returned by `file_open` addresses the object appended to the heap,
bound to the operation set of the selector's value at the call. -/
theorem file_open_some {W : Type} (env : Env W) (path : Path) (mode : file_open_mode_t)
    (s s1 : State W) (f : Nat) (h : file_open env path mode s = (some f, s1)) :
    ∃ fd : Desc, s1.heap.get? f = some { ops := file_ops_table env s.backend, fd := fd } := by
  cases hc : (env.calloc 1 env.sizeof_file s.world).1 with
  | false => simp [file_open, State.step, hc] at h
  | true =>
    simp [file_open, State.step, hc] at h
    obtain ⟨hf, hs1⟩ := h
    subst hf
    subst hs1
    exact ⟨((file_ops_table env s.backend).open_ path mode
      (env.calloc 1 env.sizeof_file s.world).2).1, by simp⟩

/-- The run of `file_dump` on a file of nonzero reported size when the three
allocations succeed: the buffer it returns is the zeroed buffer as the
backend's read left it, whatever the backend's open and read returned. -/
theorem file_dump_run {W : Type} (env : Env W) (path : Path) (s : State W)
    (size : Int) (w0 w1 w2 w3 w4 w5 : W) (d : Desc) (n : Int) (c : List Nat)
    (hsize : size ≠ 0)
    (hstat : env.stat path s.world = (some size, w0))
    (hiovec : env.calloc 1 sizeof_iovec w0 = (true, w1))
    (hbase : env.calloc 1 (to_size_t size) w1 = (true, w2))
    (hfile : env.calloc 1 env.sizeof_file w2 = (true, w3))
    (hopen : (file_ops_table env s.backend).open_ path file_open_mode_t.F_RDONLY w3 = (d, w4))
    (hread : (file_ops_table env s.backend).read d (List.replicate (to_size_t size) 0)
      (to_size_t size) w4 = ((n, c), w5)) :
    file_dump env path s =
      some (some { iov_len := to_size_t size, iov_base := c },
        { backend := s.backend,
          heap := s.heap ++ [{ ops := file_ops_table env s.backend, fd := d }],
          world := (file_ops_table env s.backend).close d w5,
          trace := s.trace ++
            [Call.stat path, Call.calloc 1 sizeof_iovec, Call.calloc 1 (to_size_t size),
             Call.calloc 1 env.sizeof_file, Call.ops_open path file_open_mode_t.F_RDONLY,
             Call.ops_read d (to_size_t size), Call.ops_close d] }) := by
  have ho := file_open_of_calloc env path file_open_mode_t.F_RDONLY
    { backend := s.backend, heap := s.heap, world := w2,
      trace := s.trace ++ [Call.stat path] ++ [Call.calloc 1 sizeof_iovec] ++
        [Call.calloc 1 (to_size_t size)] } w3 w4 d hfile hopen
  simp only [file_dump, file_get_size, State.step, hstat, hiovec, hbase, hsize, if_false,
    Bool.not_true, Bool.false_eq_true, ho]
  simp [file_read, file_close, State.step, hread]

theorem to_size_t_of_nat (L : Nat) (h : L < 2 ^ 63) : to_size_t (L : Int) = L := by
  unfold to_size_t
  have h1 : ((L : Int)) % 2 ^ 64 = (L : Int) := by
    apply Int.emod_eq_of_lt
    · exact Int.ofNat_nonneg L
    · have : (L : Int) < 2 ^ 63 := by exact_mod_cast h
      omega
  rw [h1]
  exact Int.toNat_ofNat L

/-- A file found by `disk_find` sits at the index reported. -/
theorem disk_find_get (disk : List disk_file) (p : String) (k i : Nat) (e : disk_file)
    (h : disk_find disk p k = some (i, e)) : k ≤ i ∧ disk.get? (i - k) = some e := by
  induction disk generalizing k with
  | nil => simp [disk_find] at h
  | cons x rest ih =>
    unfold disk_find at h
    by_cases hx : x.path = p
    · simp [hx] at h
      obtain ⟨hk, hxe⟩ := h
      subst hk
      subst hxe
      simp
    · simp [hx] at h
      obtain ⟨hle, hget⟩ := ih (k + 1) h
      refine ⟨by omega, ?_⟩
      have hik : i - k = (i - (k + 1)) + 1 := by omega
      rw [hik]
      simpa using hget

/-- The read of the concrete backends, asked for the whole length of the file
into a zeroed buffer of that length, leaves the file's bytes. -/
theorem disk_ops_read_whole (base : Int) (disk : List disk_file) (i : Nat) (e : disk_file)
    (hget : disk.get? i = some e) :
    (disk_ops base disk).read (base + (i : Int)) (List.replicate e.data.length 0)
      e.data.length () = ((((e.data.length : Nat) : Int), e.data), ()) := by
  have hlook : disk_lookup base disk (base + (i : Int)) = some e := by
    unfold disk_lookup
    have h1 : ¬ (base + (i : Int) < base) := by omega
    have h2 : (base + (i : Int) - base).toNat = i := by
      have : base + (i : Int) - base = (i : Int) := by omega
      rw [this]
      exact Int.toNat_ofNat i
    rw [if_neg h1, h2]
    exact hget
  simp [disk_ops, hlook]

/-- In the concrete environment, whose backends read a whole file in one call,
`file_dump` returns the on-disk bytes of every readable file of nonzero
length, under either backend. -/
theorem file_dump_disk_env (disk : List disk_file) (stfs : Option statfs_t) (p : String)
    (i : Nat) (e : disk_file) (s : State Unit)
    (hfind : disk_find disk p 0 = some (i, e)) (hreadable : e.readable = true)
    (hpos : 0 < e.data.length) (hoff : e.data.length < 2 ^ 63) :
    (file_dump (disk_env disk stfs) (some p) s).map Prod.fst =
      some (some { iov_len := e.data.length, iov_base := e.data }) := by
  have hL := to_size_t_of_nat e.data.length hoff
  have hne : ((e.data.length : Nat) : Int) ≠ 0 := by
    have : (0 : Int) < ((e.data.length : Nat) : Int) := by exact_mod_cast hpos
    omega
  have hget : disk.get? i = some e := by
    simpa using (disk_find_get disk p 0 i e hfind).2
  have hstat : (disk_env disk stfs).stat (some p) s.world =
      (some ((e.data.length : Nat) : Int), ()) := by
    simp [disk_env, disk_stat, hfind]
  cases hb : s.backend with
  | FILE_BACKEND_IO =>
    have h := file_dump_run (disk_env disk stfs) (some p) s ((e.data.length : Nat) : Int)
      () () () () () () (3 + (i : Int)) ((e.data.length : Nat) : Int) e.data hne hstat rfl rfl rfl
      (by simp [hb, file_ops_table, disk_env, disk_ops, hfind, hreadable])
      (by
        rw [hL, hb]
        simp only [file_ops_table, disk_env]
        exact disk_ops_read_whole 3 disk i e hget)
    rw [h, hL]
    rfl
  | FILE_BACKEND_FIO =>
    have h := file_dump_run (disk_env disk stfs) (some p) s ((e.data.length : Nat) : Int)
      () () () () () () (1000 + (i : Int)) ((e.data.length : Nat) : Int) e.data hne hstat
      rfl rfl rfl
      (by simp [hb, file_ops_table, disk_env, disk_ops, hfind, hreadable])
      (by
        rw [hL, hb]
        simp only [file_ops_table, disk_env]
        have h1 := disk_ops_read_whole 1000 disk i e hget
        rw [h1])
    rw [h, hL]
    rfl

/-! ## Lemmas on the stat query -/

/-- The loop resolves the name through the first table entry, in table order,
whose `value` equals `f_type`, and leaves the name alone when there is none. -/
theorem fs_type_scan_name (n : Nat) (tab : List fs_type_entry) (i : Nat) (f_type : Int)
    (name : List Nat) :
    (fs_type_scan n tab i f_type name).2 =
      match tab.find? (fun e => decide (f_type = e.value)) with
      | some e => strncpy e.name n
      | none => name := by
  induction tab generalizing i with
  | nil => rfl
  | cons e rest ih =>
    by_cases h : f_type = e.value
    · simp [fs_type_scan, h]
    · simp [fs_type_scan, h, ih]

/-- A magic number that fits `int` is stored in the table unchanged. -/
theorem to_int_of_fits (m : Int) (h0 : 0 ≤ m) (h1 : m < 2 ^ 31) : to_int m = m := by
  unfold to_int
  have h : m % 2 ^ 32 = m := Int.emod_eq_of_lt h0 (by omega)
  rw [h, if_pos h1]

/-- When some table entry stores a `value` equal to `f_type`, the loop sets the
name of an entry that stores that value. -/
theorem fs_type_scan_match (n : Nat) (tab : List fs_type_entry) (i : Nat) (f_type : Int)
    (name : List Nat) (h : ∃ e ∈ tab, f_type = e.value) :
    ∃ e ∈ tab, f_type = e.value ∧ (fs_type_scan n tab i f_type name).2 = strncpy e.name n := by
  rw [fs_type_scan_name]
  cases hf : tab.find? (fun e => decide (f_type = e.value)) with
  | none =>
    obtain ⟨e, he, hv⟩ := h
    have := List.find?_eq_none.mp hf e he
    simp [hv] at this
  | some e =>
    refine ⟨e, List.mem_of_find?_eq_some hf, ?_, rfl⟩
    simpa using List.find?_some hf

/-- The run of `file_get_systat` on a non-null path when `statfs` and the
allocation of the record succeed. -/
theorem file_get_systat_run {W : Type} (env : Env W) (p : String) (s : State W)
    (stfs : statfs_t) (w1 w2 : W)
    (hstatfs : env.statfs (some p) s.world = (some stfs, w1))
    (hcalloc : env.calloc 1 env.sizeof_file_systat w1 = (true, w2)) :
    file_get_systat env (some p) s =
      (some { size_total := mul_ulong stfs.f_bsize stfs.f_blocks,
              size_avail := mul_ulong stfs.f_bsize stfs.f_bavail,
              size_free := mul_ulong stfs.f_bsize stfs.f_bfree,
              fs_type_name :=
                match fs_type_info.find? (fun e => decide (stfs.f_type = e.value)) with
                | some e => strncpy e.name env.sizeof_fs_type_name
                | none => List.replicate env.sizeof_fs_type_name 0 },
        { backend := s.backend, heap := s.heap, world := w2,
          trace := s.trace ++ [Call.statfs (some p), Call.calloc 1 env.sizeof_file_systat] }) := by
  simp [file_get_systat, State.step, hstatfs, hcalloc, fs_type_scan_name]

/-- An eight-character name of the table, copied by `strncpy` into an array of
at least eight bytes: the eight characters, then zero bytes. -/
theorem strncpy_char32 (cs : List Char) (n : Nat) (hlen : cs.length = 8)
    (hnz : ∀ c ∈ cs, c.toNat ≠ 0) (hn : 8 ≤ n) :
    strncpy (char32 cs) n = cs.map Char.toNat ++ List.replicate (n - 8) 0 := by
  have htw : (char32 cs).takeWhile (fun c => c != 0) = cs.map Char.toNat := by
    unfold char32
    rw [hlen]
    have h1 : ∀ x ∈ cs.map Char.toNat, (fun c : Nat => c != 0) x = true := by
      intro x hx
      obtain ⟨c, hc, rfl⟩ := List.mem_map.mp hx
      simpa using hnz c hc
    rw [List.takeWhile_append_of_pos h1]
    simp [List.replicate, List.takeWhile]
  unfold strncpy
  rw [htw]
  have hl : (cs.map Char.toNat).length ≤ n := by simp [hlen, hn]
  rw [List.take_of_length_le hl]
  simp [hlen]

theorem mul_ulong_exact (a : Nat) (b : Nat) (ha : a < 2 ^ 63) (hab : a * b < 2 ^ 64) :
    mul_ulong (a : Int) b = a * b := by
  unfold mul_ulong
  rw [to_size_t_of_nat a ha]
  exact Nat.mod_eq_of_lt hab

/-! ## The dispatcher -/

/-- C1, what the code does: once the handle allocation has succeeded,
`file_open` returns a handle and not the null result, whatever descriptor the
backend's open returned, its invalid-descriptor sentinel included; the handle
stores that descriptor. -/
theorem file_open_ignores_backend_failure {W : Type} (env : Env W) (path : Path)
    (mode : file_open_mode_t) (s : State W) (w1 w2 : W) (d : Desc)
    (hcalloc : env.calloc 1 env.sizeof_file s.world = (true, w1))
    (hopen : (file_ops_table env s.backend).open_ path mode w1 = (d, w2)) :
    (file_open env path mode s).1 = some s.heap.length ∧
    (file_open env path mode s).1 ≠ none ∧
    (file_open env path mode s).2.heap.get? s.heap.length =
      some { ops := file_ops_table env s.backend, fd := d } := by
  rw [file_open_of_calloc env path mode s w1 w2 d hcalloc hopen]
  simp

/-- C1 at a failing input: the `io_ops` open of a path that names no file
returns the sentinel, and `file_open` still returns a handle. -/
theorem file_open_ignores_backend_failure_witness :
    ((disk_env disk0 none).io_ops.open_ (some "/tmp/missing")
        file_open_mode_t.F_RDONLY ()).1 = INVALID_DESC ∧
    (file_open (disk_env disk0 none) (some "/tmp/missing") file_open_mode_t.F_RDONLY
        (State.init ())).1 = some 0 :=
  ⟨by decide,
   (file_open_ignores_backend_failure (disk_env disk0 none) (some "/tmp/missing")
      file_open_mode_t.F_RDONLY (State.init ()) () () INVALID_DESC rfl rfl).1⟩

/-- C2: a handle `f` returned by `file_open` while the selector had the value
`s.backend` keeps, after any sequence of `file_backend` calls, the operation
set of that backend and its descriptor; `file_read`, `file_write`,
`file_size`, `file_seek`, `file_sync` and `file_close` on it return what that
backend's operation returns on the stored descriptor; and `file_backend`
changes the selector only. -/
theorem file_backend_isolation {W : Type} (env : Env W) (path : Path) (mode : file_open_mode_t)
    (s s1 : State W) (f : Nat) (types : List file_backend_type)
    (hopen : file_open env path mode s = (some f, s1)) :
    (∀ (t : file_backend_type) (st : State W),
      (file_backend t st).backend = t ∧ (file_backend t st).heap = st.heap ∧
      (file_backend t st).world = st.world ∧ (file_backend t st).trace = st.trace) ∧
    (file_backend_seq types s1).heap = s1.heap ∧
    (file_backend_seq types s1).world = s1.world ∧
    (file_backend_seq types s1).trace = s1.trace ∧
    ∃ fd : Desc,
      s1.heap.get? f = some { ops := file_ops_table env s.backend, fd := fd } ∧
      (file_backend_seq types s1).heap.get? f =
        some { ops := file_ops_table env s.backend, fd := fd } ∧
      (∀ data size, file_read f data size (file_backend_seq types s1) =
        some (((file_ops_table env s.backend).read fd data size s1.world).1,
          (file_backend_seq types s1).step (Call.ops_read fd size)
            ((file_ops_table env s.backend).read fd data size s1.world).2)) ∧
      (∀ data size, file_write f data size (file_backend_seq types s1) =
        some (((file_ops_table env s.backend).write fd data size s1.world).1,
          (file_backend_seq types s1).step (Call.ops_write fd size)
            ((file_ops_table env s.backend).write fd data size s1.world).2)) ∧
      file_size f (file_backend_seq types s1) =
        some (((file_ops_table env s.backend).size fd s1.world).1,
          (file_backend_seq types s1).step (Call.ops_size fd)
            ((file_ops_table env s.backend).size fd s1.world).2) ∧
      (∀ offset whence, file_seek f offset whence (file_backend_seq types s1) =
        some (((file_ops_table env s.backend).seek fd offset whence s1.world).1,
          (file_backend_seq types s1).step (Call.ops_seek fd offset whence)
            ((file_ops_table env s.backend).seek fd offset whence s1.world).2)) ∧
      file_sync f (file_backend_seq types s1) =
        some (((file_ops_table env s.backend).sync fd s1.world).1,
          (file_backend_seq types s1).step (Call.ops_sync fd)
            ((file_ops_table env s.backend).sync fd s1.world).2) ∧
      file_close f (file_backend_seq types s1) =
        some ((file_backend_seq types s1).step (Call.ops_close fd)
          ((file_ops_table env s.backend).close fd s1.world)) := by
  obtain ⟨fd, hfd⟩ := file_open_some env path mode s s1 f hopen
  have hheap := file_backend_seq_heap types s1
  have hworld := file_backend_seq_world types s1
  have htrace := file_backend_seq_trace types s1
  refine ⟨fun t st => ⟨rfl, rfl, rfl, rfl⟩, hheap, hworld, htrace, fd, hfd, ?_, ?_, ?_, ?_, ?_, ?_, ?_⟩
  · rw [hheap]; exact hfd
  · intro data size
    simp only [file_read, hheap, hfd, hworld]
  · intro data size
    simp only [file_write, hheap, hfd, hworld]
  · simp only [file_size, hheap, hfd, hworld]
  · intro offset whence
    simp only [file_seek, hheap, hfd, hworld]
  · simp only [file_sync, hheap, hfd, hworld]
  · simp only [file_close, hheap, hfd, hworld]

/-- C2 on a concrete run: a handle opened under `FILE_BACKEND_IO` still reads
through `io_ops` after the selector was switched to `FILE_BACKEND_FIO`,
although the `fio_ops` read of the same descriptor fails. -/
theorem file_backend_isolation_witness :
    file_open (disk_env disk0 none) (some "/tmp/data.bin") file_open_mode_t.F_RDONLY
        (State.init ()) =
      (some 0, (file_open (disk_env disk0 none) (some "/tmp/data.bin")
        file_open_mode_t.F_RDONLY (State.init ())).2) ∧
    (file_backend_seq [ file_backend_type.FILE_BACKEND_FIO]
      (file_open (disk_env disk0 none) (some "/tmp/data.bin")
        file_open_mode_t.F_RDONLY (State.init ())).2).backend =
       file_backend_type.FILE_BACKEND_FIO ∧
    ((disk_env disk0 none).fio_ops.read 3 [0, 0, 0, 0] 4 ()).1 = (-1, [0, 0, 0, 0]) ∧
    (file_read 0 [0, 0, 0, 0] 4
      (file_backend_seq [ file_backend_type.FILE_BACKEND_FIO]
        (file_open (disk_env disk0 none) (some "/tmp/data.bin")
          file_open_mode_t.F_RDONLY (State.init ())).2)).map Prod.fst =
      some (4, [222, 173, 190, 239]) := by
  refine ⟨rfl, rfl, by decide, ?_⟩
  obtain ⟨_, _, _, _, fd, h1, _, hr, _⟩ :=
    file_backend_isolation (disk_env disk0 none) (some "/tmp/data.bin")
      file_open_mode_t.F_RDONLY (State.init ())
      (file_open (disk_env disk0 none) (some "/tmp/data.bin")
        file_open_mode_t.F_RDONLY (State.init ())).2 0
      [ file_backend_type.FILE_BACKEND_FIO] rfl
  have hfd : fd = 3 := by
    have h2 := congrArg (Option.map file.fd) h1
    exact (Option.some.inj h2).symm
  subst hfd
  rw [hr]
  rfl

/-! ## Whole-file dump -/

/-- C3, as the claim states it, fails: the file holds the four bytes
222, 173, 190, 239, `stat` reports length 4, the allocations succeed and the
backend's open succeeds (descriptor 3, not the sentinel), but the backend's
read transfers two bytes in the one call `file_dump` makes; `file_dump`
returns a buffer of length 4 holding 222, 173, 0, 0, not the file's bytes. -/
theorem file_dump_short_read_partial :
    disk_find disk0 "/tmp/data.bin" 0 =
      some (0, { path := "/tmp/data.bin", readable := true, data := [222, 173, 190, 239] }) ∧
    (file_get_size (chunk_env 2 disk0 none) (some "/tmp/data.bin") (State.init ())).1 = 4 ∧
    ((chunk_env 2 disk0 none).calloc 1 sizeof_iovec ()).1 = true ∧
    ((chunk_env 2 disk0 none).calloc 1 4 ()).1 = true ∧
    ((chunk_env 2 disk0 none).calloc 1 (chunk_env 2 disk0 none).sizeof_file ()).1 = true ∧
    ((chunk_env 2 disk0 none).io_ops.open_ (some "/tmp/data.bin")
        file_open_mode_t.F_RDONLY ()).1 = 3 ∧
    (3 : Desc) ≠ INVALID_DESC ∧
    (file_dump (chunk_env 2 disk0 none) (some "/tmp/data.bin") (State.init ())).map Prod.fst =
      some (some { iov_len := 4, iov_base := [222, 173, 0, 0] }) ∧
    ¬ ((file_dump (chunk_env 2 disk0 none) (some "/tmp/data.bin") (State.init ())).map Prod.fst =
      some (some { iov_len := 4, iov_base := [222, 173, 190, 239] })) := by
  decide

/-- C3 amended: for a file whose reported length is `L > 0` (within `off_t`) and
whose bytes are `c`, the three allocations succeeding, the backend's open
returning a descriptor, and the one read call on that descriptor transferring
the whole file (it reports `L` bytes read and leaves `c`, of length `L`, in
the zeroed `L`-byte buffer), `file_dump` returns a buffer, not the null
result, with `iov_len = L` and bytes `c`. -/
theorem file_dump_returns_contents_of_full_read {W : Type} (env : Env W) (path : Path)
    (s : State W) (L : Nat) (w0 w1 w2 w3 w4 w5 : W) (d : Desc) (c : List Nat)
    (hpos : 0 < L) (hoff : L < 2 ^ 63)
    (hstat : env.stat path s.world = (some (L : Int), w0))
    (hiovec : env.calloc 1 sizeof_iovec w0 = (true, w1))
    (hbase : env.calloc 1 L w1 = (true, w2))
    (hfile : env.calloc 1 env.sizeof_file w2 = (true, w3))
    (hopen : (file_ops_table env s.backend).open_ path file_open_mode_t.F_RDONLY w3 = (d, w4))
    (hread : (file_ops_table env s.backend).read d (List.replicate L 0) L w4 =
      (((L : Int), c), w5))
    (hlen : c.length = L) :
    ∃ s1 : State W,
      file_dump env path s = some (some { iov_len := L, iov_base := c }, s1) ∧
      c.length = L ∧
      s1.trace = s.trace ++
        [Call.stat path, Call.calloc 1 sizeof_iovec, Call.calloc 1 L,
         Call.calloc 1 env.sizeof_file, Call.ops_open path file_open_mode_t.F_RDONLY,
         Call.ops_read d L, Call.ops_close d] := by
  have hL := to_size_t_of_nat L hoff
  have hne : (L : Int) ≠ 0 := by
    have : (0 : Int) < (L : Int) := by exact_mod_cast hpos
    omega
  have h := file_dump_run env path s (L : Int) w0 w1 w2 w3 w4 w5 d (L : Int) c hne hstat hiovec
    (by rw [hL]; exact hbase) hfile hopen (by rw [hL]; exact hread)
  rw [hL] at h
  exact ⟨_, h, hlen, rfl⟩

/-- C3 amended, on the four-byte file of the concrete disk, whose backend reads
the whole file in one call. -/
theorem file_dump_returns_contents_of_full_read_witness :
    disk_find disk0 "/tmp/data.bin" 0 =
      some (0, { path := "/tmp/data.bin", readable := true, data := [222, 173, 190, 239] }) ∧
    (file_dump (disk_env disk0 none) (some "/tmp/data.bin") (State.init ())).map Prod.fst =
      some (some { iov_len := 4, iov_base := [222, 173, 190, 239] }) := by
  refine ⟨by decide, ?_⟩
  obtain ⟨s1, h, _, _⟩ := file_dump_returns_contents_of_full_read (disk_env disk0 none)
    (some "/tmp/data.bin") (State.init ()) 4 () () () () () () 3 [222, 173, 190, 239]
    (by decide) (by decide) rfl rfl rfl rfl rfl rfl rfl
  rw [h]
  rfl

/-- C4, what the code does: for a file of reported length `L > 0`, the three
allocations succeeding, `file_dump` returns a buffer and not the null result
whatever descriptor the backend's open returned, its failure sentinel
included; when the read on that descriptor leaves the buffer alone, the
buffer returned is `L` zero bytes. -/
theorem file_dump_ignores_open_failure {W : Type} (env : Env W) (path : Path) (s : State W)
    (L : Nat) (w0 w1 w2 w3 w4 w5 : W) (d : Desc) (n : Int)
    (hpos : 0 < L) (hoff : L < 2 ^ 63)
    (hstat : env.stat path s.world = (some (L : Int), w0))
    (hiovec : env.calloc 1 sizeof_iovec w0 = (true, w1))
    (hbase : env.calloc 1 L w1 = (true, w2))
    (hfile : env.calloc 1 env.sizeof_file w2 = (true, w3))
    (hopen : (file_ops_table env s.backend).open_ path file_open_mode_t.F_RDONLY w3 = (d, w4))
    (hread : (file_ops_table env s.backend).read d (List.replicate L 0) L w4 =
      ((n, List.replicate L 0), w5)) :
    (file_dump env path s).map Prod.fst =
      some (some { iov_len := L, iov_base := List.replicate L 0 }) ∧
    (file_dump env path s).map Prod.fst ≠ some none := by
  have hL := to_size_t_of_nat L hoff
  have hne : (L : Int) ≠ 0 := by
    have : (0 : Int) < (L : Int) := by exact_mod_cast hpos
    omega
  have h := file_dump_run env path s (L : Int) w0 w1 w2 w3 w4 w5 d n (List.replicate L 0)
    hne hstat hiovec (by rw [hL]; exact hbase) hfile hopen (by rw [hL]; exact hread)
  rw [hL] at h
  rw [h]
  simp

/-- C4 at a failing input: the file exists with four bytes but may not be read,
the backend's open returns the sentinel, and `file_dump` returns a buffer of
four zero bytes. -/
theorem file_dump_ignores_open_failure_witness :
    ((disk_env disk0 none).io_ops.open_ (some "/tmp/secret")
        file_open_mode_t.F_RDONLY ()).1 = INVALID_DESC ∧
    (file_dump (disk_env disk0 none) (some "/tmp/secret") (State.init ())).map Prod.fst =
      some (some { iov_len := 4, iov_base := [0, 0, 0, 0] }) :=
  ⟨by decide,
   (file_dump_ignores_open_failure (disk_env disk0 none) (some "/tmp/secret")
      (State.init ()) 4 () () () () () () INVALID_DESC (-1)
      (by decide) (by decide) rfl rfl rfl rfl rfl rfl).1⟩

/-- C5: when `file_get_size` returns 0 for the path, `file_dump` returns the
null result, and all it has done is the `stat` call of `file_get_size` (and
its error message when `stat` failed): no allocation, no open, no handle. -/
theorem file_dump_zero_size {W : Type} (env : Env W) (path : Path) (s : State W)
    (hzero : (file_get_size env path s).1 = 0) :
    ∃ s1 : State W,
      file_dump env path s = some (none, s1) ∧
      s1 = (file_get_size env path s).2 ∧
      s1.heap = s.heap ∧ s1.backend = s.backend ∧
      (s1.trace = s.trace ++ [Call.stat path] ∨
       s1.trace = s.trace ++ [Call.stat path, Call.printf "%s stat error: %s\n"]) := by
  refine ⟨(file_get_size env path s).2, ?_, rfl, ?_, ?_, ?_⟩
  · simp [file_dump, hzero]
  · unfold file_get_size
    cases h : (env.stat path s.world).1 <;> simp [State.step, h]
  · unfold file_get_size
    cases h : (env.stat path s.world).1 <;> simp [State.step, h]
  · unfold file_get_size
    cases h : (env.stat path s.world).1 <;> simp [State.step, h]

/-- C5 on the empty file of the concrete disk. -/
theorem file_dump_zero_size_witness :
    (file_get_size (disk_env disk0 none) (some "/tmp/empty") (State.init ())).1 = 0 ∧
    ∃ s1 : State Unit,
      file_dump (disk_env disk0 none) (some "/tmp/empty") (State.init ()) = some (none, s1) ∧
      s1 = (file_get_size (disk_env disk0 none) (some "/tmp/empty") (State.init ())).2 ∧
      s1.heap = (State.init ()).heap ∧ s1.backend = (State.init ()).backend ∧
      (s1.trace = (State.init ()).trace ++ [Call.stat (some "/tmp/empty")] ∨
       s1.trace = (State.init ()).trace ++
         [Call.stat (some "/tmp/empty"), Call.printf "%s stat error: %s\n"]) :=
  ⟨by decide,
   file_dump_zero_size (disk_env disk0 none) (some "/tmp/empty") (State.init ()) (by decide)⟩

/-! ## Filesystem stat query -/

/-- C6, what the code does: when `statfs` reports in `f_type` the magic number
of the CIFS, RAMFS or SELINUX enumerator, taken as the non-negative value
written in the source, no entry of `fs_type_info` compares equal to it (the
`int` field holds the value wrapped to a negative number), and
`file_get_systat` leaves `fs_type_name` all zero bytes. -/
theorem fs_type_high_magic_unmatched {W : Type} (env : Env W) (p : String) (s : State W)
    (stfs : statfs_t) (w1 w2 : W)
    (hstatfs : env.statfs (some p) s.world = (some stfs, w1))
    (hcalloc : env.calloc 1 env.sizeof_file_systat w1 = (true, w2))
    (hmagic : stfs.f_type = FS_CIFS ∨ stfs.f_type = FS_RAMFS ∨ stfs.f_type = FS_SELINUX) :
    (∀ e ∈ fs_type_info, stfs.f_type ≠ e.value) ∧
    ∃ r : file_systat,
      (file_get_systat env (some p) s).1 = some r ∧
      r.fs_type_name = List.replicate env.sizeof_fs_type_name 0 := by
  have hall : ∀ e ∈ fs_type_info, stfs.f_type ≠ e.value := by
    rcases hmagic with h | h | h <;> rw [h] <;> decide
  have hfind : fs_type_info.find? (fun e => decide (stfs.f_type = e.value)) = none := by
    rw [List.find?_eq_none]
    intro e he
    simpa using hall e he
  refine ⟨hall, ?_⟩
  rw [file_get_systat_run env p s stfs w1 w2 hstatfs hcalloc, hfind]
  exact ⟨_, rfl, rfl⟩

/-- C6 at a failing input: a path on a CIFS mount. The table holds the entry
`{"CIFS    ", FS_CIFS}` with `value = -11317950`, the kernel reports
`f_type = 0xFF534D42`, and the name comes back empty. -/
theorem fs_type_high_magic_unmatched_witness :
    fs_type_info.get? 0 =
      some { name := char32 "CIFS    ".toList, value := -11317950 } ∧
    FS_CIFS = 4283649346 ∧
    ∃ r : file_systat,
      (file_get_systat (disk_env disk0 (some (statfs0 0xFF534D42)))
        (some "/mnt/share") (State.init ())).1 = some r ∧
      r.fs_type_name = List.replicate 32 0 :=
  ⟨by decide, by decide,
   (fs_type_high_magic_unmatched (disk_env disk0 (some (statfs0 0xFF534D42)))
      "/mnt/share" (State.init ()) (statfs0 0xFF534D42) () () rfl rfl (Or.inl rfl)).2⟩

/-- C7: when `statfs` reports `f_type = 0xEF53` (and the record's name array
holds at least eight bytes), `file_get_systat` sets `fs_type_name` to
`"EXT2    "` followed by zero bytes: the name of the first entry of
`fs_type_info`, in table order, with that magic number (index 7), not the
names of the EXT3 and EXT4 entries that follow with the same number. -/
theorem fs_type_ext_resolves_to_ext2 {W : Type} (env : Env W) (p : String) (s : State W)
    (stfs : statfs_t) (w1 w2 : W)
    (hstatfs : env.statfs (some p) s.world = (some stfs, w1))
    (hcalloc : env.calloc 1 env.sizeof_file_systat w1 = (true, w2))
    (hmagic : stfs.f_type = 0xEF53)
    (hlen : 8 ≤ env.sizeof_fs_type_name) :
    (∃ r : file_systat,
      (file_get_systat env (some p) s).1 = some r ∧
      r.fs_type_name =
        "EXT2    ".toList.map Char.toNat ++ List.replicate (env.sizeof_fs_type_name - 8) 0 ∧
      r.fs_type_name ≠
        "EXT3    ".toList.map Char.toNat ++ List.replicate (env.sizeof_fs_type_name - 8) 0 ∧
      r.fs_type_name ≠
        "EXT4    ".toList.map Char.toNat ++ List.replicate (env.sizeof_fs_type_name - 8) 0) ∧
    fs_type_info.get? 7 = some (fs_entry "EXT2    " FS_EXT2) ∧
    (∀ j : Nat, j < 7 → ∀ e : fs_type_entry, fs_type_info.get? j = some e → e.value ≠ 0xEF53) ∧
    fs_type_info.get? 8 = some (fs_entry "EXT3    " 0xEF53) ∧
    fs_type_info.get? 9 = some (fs_entry "EXT4    " 0xEF53) ∧
    (fs_type_scan env.sizeof_fs_type_name fs_type_info 0 0xEF53
      (List.replicate env.sizeof_fs_type_name 0)).1 = 7 := by
  have hfind : fs_type_info.find? (fun e => decide (stfs.f_type = e.value)) =
      some (fs_entry "EXT2    " FS_EXT2) := by
    rw [hmagic]
    decide
  have hcopy : strncpy (fs_entry "EXT2    " FS_EXT2).name env.sizeof_fs_type_name =
      "EXT2    ".toList.map Char.toNat ++ List.replicate (env.sizeof_fs_type_name - 8) 0 :=
    strncpy_char32 "EXT2    ".toList env.sizeof_fs_type_name (by decide) (by decide) hlen
  refine ⟨?_, by decide, ?_, by decide, by decide, ?_⟩
  · rw [file_get_systat_run env p s stfs w1 w2 hstatfs hcalloc, hfind]
    refine ⟨_, rfl, hcopy, ?_, ?_⟩
    · show strncpy (fs_entry "EXT2    " FS_EXT2).name env.sizeof_fs_type_name ≠ _
      rw [hcopy]
      intro h
      exact absurd (List.append_left_inj _ |>.mp h) (by decide)
    · show strncpy (fs_entry "EXT2    " FS_EXT2).name env.sizeof_fs_type_name ≠ _
      rw [hcopy]
      intro h
      exact absurd (List.append_left_inj _ |>.mp h) (by decide)
  · intro j hj e he
    interval_cases j <;> simp [fs_type_info] at he <;> subst he <;> decide
  · simp [fs_type_scan, fs_type_info, fs_entry, to_int, FS_CIFS, FS_CRAMFS, FS_DEBUGFS, FS_DEVFS,
      FS_DEVPTS, FS_EXT, FS_EXT2_OLD, FS_EXT2]

/-- C7 on a concrete run with a 32-byte name array. -/
theorem fs_type_ext_resolves_to_ext2_witness :
    ∃ r : file_systat,
      (file_get_systat (disk_env disk0 (some (statfs0 0xEF53)))
        (some "/home") (State.init ())).1 = some r ∧
      r.fs_type_name = "EXT2    ".toList.map Char.toNat ++ List.replicate 24 0 := by
  obtain ⟨⟨r, hr, hname, _, _⟩, _⟩ := fs_type_ext_resolves_to_ext2
    (disk_env disk0 (some (statfs0 0xEF53))) "/home" (State.init ()) (statfs0 0xEF53)
    () () rfl rfl rfl (by decide)
  exact ⟨r, hr, hname⟩

/-- C8, as the claim states it, fails: with `statfs` failing on the path, the
result for the null path and the result for the path are the same null
result. -/
theorem file_get_systat_failures_not_distinct :
    ¬ ((file_get_systat (disk_env disk0 none) none (State.init ())).1 ≠
       (file_get_systat (disk_env disk0 none) (some "/tmp/missing") (State.init ())).1) := by
  decide

/-- C8 amended: for a null path `file_get_systat` returns the null result at
once, having only printed its message and not called `statfs`; when `statfs`
fails on a non-null path it returns the same null result, after the `statfs`
call and a different message. The two failures differ in the message
printed, not in the value returned. -/
theorem file_get_systat_failures {W : Type} (env : Env W) (p : String) (s : State W) (w1 : W)
    (hstatfs : env.statfs (some p) s.world = (none, w1)) :
    file_get_systat env none s =
      (none, { backend := s.backend, heap := s.heap, world := s.world,
               trace := s.trace ++ [Call.printf "path can't be null\n"] }) ∧
    file_get_systat env (some p) s =
      (none, { backend := s.backend, heap := s.heap, world := w1,
               trace := s.trace ++
                 [Call.statfs (some p), Call.printf "statfs %s failed: %s\n"] }) ∧
    (file_get_systat env none s).1 = (file_get_systat env (some p) s).1 := by
  have h1 : file_get_systat env none s =
      (none, { backend := s.backend, heap := s.heap, world := s.world,
               trace := s.trace ++ [Call.printf "path can't be null\n"] }) := by
    simp [file_get_systat, State.step]
  have h2 : file_get_systat env (some p) s =
      (none, { backend := s.backend, heap := s.heap, world := w1,
               trace := s.trace ++
                 [Call.statfs (some p), Call.printf "statfs %s failed: %s\n"] }) := by
    simp [file_get_systat, State.step, hstatfs]
  exact ⟨h1, h2, by rw [h1, h2]⟩

/-- C8 amended, on a concrete run where `statfs` fails. -/
theorem file_get_systat_failures_witness :
    (file_get_systat (disk_env disk0 none) none (State.init ())).1 = none ∧
    (file_get_systat (disk_env disk0 none) (some "/tmp/missing") (State.init ())).1 = none ∧
    (file_get_systat (disk_env disk0 none) none (State.init ())).2.trace =
      [Call.printf "path can't be null\n"] ∧
    (file_get_systat (disk_env disk0 none) (some "/tmp/missing") (State.init ())).2.trace =
      [Call.statfs (some "/tmp/missing"), Call.printf "statfs %s failed: %s\n"] := by
  obtain ⟨h1, h2, _⟩ := file_get_systat_failures (disk_env disk0 none) "/tmp/missing"
    (State.init ()) () rfl
  rw [h1, h2]
  exact ⟨rfl, rfl, rfl, rfl⟩

/-- C9: on a non-null path, `statfs` and the allocation of the record
succeeding, when the reported magic number equals the `value` of no entry of
`fs_type_info`, `file_get_systat` returns a record, not the null result: the
three capacities hold the products of the block size and the block counts,
and `fs_type_name` is all zero bytes. -/
theorem file_get_systat_unknown_type {W : Type} (env : Env W) (p : String) (s : State W)
    (stfs : statfs_t) (w1 w2 : W)
    (hstatfs : env.statfs (some p) s.world = (some stfs, w1))
    (hcalloc : env.calloc 1 env.sizeof_file_systat w1 = (true, w2))
    (hnone : ∀ e ∈ fs_type_info, stfs.f_type ≠ e.value) :
    (file_get_systat env (some p) s).1 =
      some { size_total := mul_ulong stfs.f_bsize stfs.f_blocks,
             size_avail := mul_ulong stfs.f_bsize stfs.f_bavail,
             size_free := mul_ulong stfs.f_bsize stfs.f_bfree,
             fs_type_name := List.replicate env.sizeof_fs_type_name 0 } := by
  have hfind : fs_type_info.find? (fun e => decide (stfs.f_type = e.value)) = none := by
    rw [List.find?_eq_none]
    intro e he
    simpa using hnone e he
  rw [file_get_systat_run env p s stfs w1 w2 hstatfs hcalloc, hfind]

/-- C9 on a concrete run: the magic number 0x9123683E is not in the table. -/
theorem file_get_systat_unknown_type_witness :
    (file_get_systat (disk_env disk0 (some (statfs0 0x9123683E)))
        (some "/data") (State.init ())).1 =
      some { size_total := 4096000, size_avail := 1638400, size_free := 2048000,
             fs_type_name := List.replicate 32 0 } :=
  file_get_systat_unknown_type (disk_env disk0 (some (statfs0 0x9123683E)))
    "/data" (State.init ()) (statfs0 0x9123683E) () () rfl rfl (by decide)

/-- C10: when `statfs` reports a block size of 4096 and total, available and
free block counts of at most 2^40, `file_get_systat` sets `size_total`,
`size_avail` and `size_free` to the exact products `4096 * f_blocks`,
`4096 * f_bavail` and `4096 * f_bfree`: the 64-bit multiplication does not
wrap. -/
theorem file_get_systat_sizes_exact {W : Type} (env : Env W) (p : String) (s : State W)
    (stfs : statfs_t) (w1 w2 : W)
    (hstatfs : env.statfs (some p) s.world = (some stfs, w1))
    (hcalloc : env.calloc 1 env.sizeof_file_systat w1 = (true, w2))
    (hbsize : stfs.f_bsize = 4096)
    (hblocks : stfs.f_blocks ≤ 2 ^ 40)
    (hbavail : stfs.f_bavail ≤ 2 ^ 40)
    (hbfree : stfs.f_bfree ≤ 2 ^ 40) :
    ∃ r : file_systat,
      (file_get_systat env (some p) s).1 = some r ∧
      r.size_total = 4096 * stfs.f_blocks ∧
      r.size_avail = 4096 * stfs.f_bavail ∧
      r.size_free = 4096 * stfs.f_bfree := by
  rw [file_get_systat_run env p s stfs w1 w2 hstatfs hcalloc, hbsize]
  refine ⟨_, rfl, ?_, ?_, ?_⟩
  · exact mul_ulong_exact 4096 stfs.f_blocks (by norm_num) (by omega)
  · exact mul_ulong_exact 4096 stfs.f_bavail (by norm_num) (by omega)
  · exact mul_ulong_exact 4096 stfs.f_bfree (by norm_num) (by omega)

/-- C10 on a concrete run at the bound: 2^40 blocks of 4096 bytes. -/
theorem file_get_systat_sizes_exact_witness :
    ∃ r : file_systat,
      (file_get_systat
        (disk_env disk0 (some { f_type := 0xEF53, f_bsize := 4096, f_blocks := 2 ^ 40,
                                f_bfree := 2 ^ 39, f_bavail := 2 ^ 38 }))
        (some "/home") (State.init ())).1 = some r ∧
      r.size_total = 4096 * 2 ^ 40 ∧
      r.size_avail = 4096 * 2 ^ 38 ∧
      r.size_free = 4096 * 2 ^ 39 :=
  file_get_systat_sizes_exact
    (disk_env disk0 (some { f_type := 0xEF53, f_bsize := 4096, f_blocks := 2 ^ 40,
                            f_bfree := 2 ^ 39, f_bavail := 2 ^ 38 }))
    "/home" (State.init ())
    { f_type := 0xEF53, f_bsize := 4096, f_blocks := 2 ^ 40, f_bfree := 2 ^ 39, f_bavail := 2 ^ 38 }
    () () rfl rfl rfl (by norm_num) (by norm_num) (by norm_num)

end Libfile
